import Mathlib

/-!
Shallow embedding of `timelapse.py` (TimeLapseApp): a PyQt5 webcam timelapse
application.  The GUI process state (window fields) becomes an explicit
`AppState` record; each Qt slot / timer callback becomes a pure state
transformer.  External collaborators are explicit parameters or event logs:

* the camera backend is a `CamEnv : Nat → Probe` giving, for each device
  index, whether `cv2.VideoCapture(i).isOpened()` succeeds and what a
  subsequent `cap.read()` returns (`none` models `ret == False`);
* a camera read performed during a tick is passed in as an `Option Frame`;
* `time.time()` values are passed in as `Nat` seconds;
* spin-box values (`spinIntervalo`, `spinTempoTotal`, `spinFPS`) are passed
  in as `Int`;
* side effects (`cv2.imwrite`, `QProcess.start("ffmpeg", ...)`,
  `abrir_pasta_no_sistema`, `release()` of the held handle) are recorded in
  append-only logs inside the state.

Transient probe handles opened and released inside `detectar_cameras` and
inside a failed `abrir_camera` never enter the state: only the handle held
in `self.cap` is modelled as owned.
-/

namespace Timelapse

/-- Frame buffer as returned by `cap.read()`: an opaque payload plus the
numpy `size` attribute tested by `capturar_frame`. -/
structure Frame where
  data : Nat
  size : Nat
deriving DecidableEq, Repr

/-- Outcome of probing one device index: `opened` is
`cv2.VideoCapture(i).isOpened()`, `read` is the result of one `cap.read()`
(`none` when `ret` is false). -/
structure Probe where
  opened : Bool
  read : Option Frame
deriving DecidableEq, Repr

/-- Camera backend: behaviour of each device index. -/
def CamEnv : Type := Nat → Probe

/-- One recorded `QProcess.start("ffmpeg", args)` call with its working
directory. -/
structure EncodeJob where
  workdir : String
  args : List String
deriving DecidableEq, Repr

/-- Decimal digits of a natural number (mirrors Python `str(n)`). -/
def natStr (n : Nat) : String := Nat.repr n

/-- Python `f"{n:05d}"` for a non-negative int: pad with leading zeros to
width 5, never truncating. -/
def pad5 (n : Nat) : String :=
  let t := natStr n
  String.mk (List.replicate (5 - t.length) '0') ++ t

/-- Python `f"{n:02d}"` for a non-negative int. -/
def pad2 (n : Nat) : String :=
  let t := natStr n
  String.mk (List.replicate (2 - t.length) '0') ++ t

/-- Round-half-to-even of the exact ratio `num / den` (`den > 0`): the value
of Python `round(num / den)` up to float representation error. -/
def pyRound (num den : Nat) : Nat :=
  let q := num / den
  let r := num % den
  if 2 * r < den then q
  else if den < 2 * r then q + 1
  else if q % 2 = 0 then q else q + 1

/-- Source `formatar_duracao`: seconds to `"mm:ss"` or `"hh:mm:ss"`, input
clamped to be non-negative. -/
def formatar_duracao (segundos : Int) : String :=
  let s := (max 0 segundos).toNat
  let hh := s / 3600
  let resto := s % 3600
  let mm := resto / 60
  let ss := resto % 60
  if 0 < hh then pad2 hh ++ ":" ++ pad2 mm ++ ":" ++ pad2 ss
  else pad2 mm ++ ":" ++ pad2 ss

/-- Python `math.ceil(a / b)` for naturals with `b > 0`. -/
def ceilDivNat (a b : Nat) : Nat := (a + b - 1) / b

/-- Source `os.path.join(self.pasta_execucao, nome)`; during a run
`pasta_execucao` is always set. -/
def joinPath : Option String → String → String
  | none, nome => nome
  | some p, nome => p ++ "/" ++ nome

/-- Window state of `TimeLapseApp` plus event logs for the effects the
claims observe. -/
structure AppState where
  cap : Option Nat := none
  camera_index_atual : Nat := 0
  frame_atual : Option Frame := none
  inicio : Nat := 0
  fim_previsto : Nat := 0
  contador : Nat := 0
  frames_previstos : Nat := 0
  pasta_execucao : Option String := none
  video_path_ultimo : Option String := none
  cameras : List Nat := []
  combo_index : Int := 0
  capture_active : Bool := false
  capture_period_ms : Nat := 0
  preview_active : Bool := false
  preview_checked : Bool := true
  controls_blocked : Bool := false
  btn_text : String := "Iniciar timelapse"
  progress_value : Nat := 0
  progress_max : Nat := 1
  lineEdit_text : String := ""
  lineEdit_2_text : String := ""
  status_msg : String := ""
  saved_files : List (String × Frame) := []
  ffmpeg_calls : List EncodeJob := []
  folder_open_calls : List String := []
  released : List Nat := []
deriving DecidableEq, Repr

/-- Source `preview_habilitado`: the checkbox state (when no checkbox is
found the source defaults to `True`; the modelled checkbox always exists). -/
def preview_habilitado (s : AppState) : Bool := s.preview_checked

/-- Source `comboCamera.currentData()`: the device index stored at the
current combo position, `none` when the position is invalid. -/
def comboCurrentData (s : AppState) : Option Nat :=
  if s.combo_index < 0 then none else s.cameras.get? s.combo_index.toNat

/-- Source `comboCamera.findData(v)`: position of `v` among the items, or
`-1` when absent. -/
def findData (items : List Nat) (v : Nat) : Int :=
  if v ∈ items then (items.indexOf v : Int) else -1

/-- Recursion of the probe loop in `detectar_cameras`: `rem` indices remain,
`i` is the next index, `falhas` the consecutive-failure counter. -/
def detectar_aux (env : CamEnv) : Nat → Nat → Nat → List Nat
  | 0, _, _ => []
  | rem + 1, i, falhas =>
    if (env i).opened = false then
      if 2 ≤ falhas + 1 then [] else detectar_aux env rem (i + 1) (falhas + 1)
    else if (env i).read.isSome then
      i :: detectar_aux env rem (i + 1) 0
    else
      if 2 ≤ falhas + 1 then [] else detectar_aux env rem (i + 1) (falhas + 1)

/-- Source `detectar_cameras(max_testes)`: the list of usable indices it
builds (the combo repopulation is UI glue and is not part of this value). -/
def detectar_cameras (env : CamEnv) (max_testes : Nat) : List Nat :=
  detectar_aux env max_testes 0 0

/-- Source `abrir_camera(index)`: on a failed open or failed liveness read
the new transient handle is dropped and the state is untouched; on success
the previously held handle (if any) is released and replaced and the first
frame read is cached. -/
def abrir_camera (env : CamEnv) (index : Nat) (s : AppState) : Bool × AppState :=
  if (env index).opened = false then (false, s)
  else
    match (env index).read with
    | none => (false, s)
    | some frame =>
      (true, { s with released := s.released ++ s.cap.toList,
                      cap := some index,
                      camera_index_atual := index,
                      frame_atual := some frame })

/-- Source `trocar_camera_por_combo`: the combo-change slot.  The
`blockSignals` bracket around `setCurrentIndex` is modelled by not
re-entering the slot. -/
def trocar_camera_por_combo (env : CamEnv) (s : AppState) : AppState :=
  match comboCurrentData s with
  | none => s
  | some novo =>
    if s.capture_active then s
    else
      let preview_estava := s.preview_active
      let s1 : AppState := { s with preview_active := false }
      let res := abrir_camera env novo s1
      let s3 :=
        if res.1 then res.2
        else
          let fallback := match s.cameras with | [] => 0 | c :: _ => c
          let s2b := (abrir_camera env fallback res.2).2
          let i := findData s.cameras fallback
          if 0 ≤ i then { s2b with combo_index := i } else s2b
      if preview_estava && preview_habilitado s3 && s3.cap.isSome then
        { s3 with preview_active := true }
      else s3

/-- Source `atualizar_preview`: one preview-timer tick, with the camera read
result passed in (`none` when `ret` is false); the QLabel pixmap update is
UI glue. -/
def atualizar_preview (read : Option Frame) (s : AppState) : AppState :=
  if preview_habilitado s = false then s
  else if s.cap.isNone then s
  else
    match read with
    | none => s
    | some f => { s with frame_atual := some f }

/-- Frame-count prediction shared by `atualizar_previsoes` (including its
dead `if intervalo > 0 else 0` guard: `intervalo = max(1, ...)`). -/
def previsao_frames (spinIntervalo spinTempoTotal : Int) : Nat :=
  let intervalo := (max 1 spinIntervalo).toNat
  let tempo_total := (max 0 spinTempoTotal).toNat
  if 0 < intervalo then ceilDivNat tempo_total intervalo else 0

/-- Source `atualizar_previsoes`: recompute and publish the predicted frame
count and predicted video duration (status line only outside a run). -/
def atualizar_previsoes (spinIntervalo spinTempoTotal spinFPS : Int)
    (s : AppState) : AppState :=
  let frames_previstos := previsao_frames spinIntervalo spinTempoTotal
  let fps_video := (max 1 spinFPS).toNat
  let dur_video := if frames_previstos ≠ 0 then pyRound frames_previstos fps_video else 0
  let s1 : AppState := { s with lineEdit_2_text := natStr frames_previstos }
  if s1.capture_active = false then
    { s1 with status_msg := "Previsto: " ++ natStr frames_previstos
        ++ " frames | Vídeo: " ++ formatar_duracao (dur_video : Int) }
  else s1

/-- Source `iniciar_timelapse`: `base` is the `QFileDialog` result (empty on
cancel), `ts` the `time.strftime` stamp, `now` the value of `time.time()`;
`os.makedirs` is a filesystem effect outside the state. -/
def iniciar_timelapse (base ts : String)
    (spinIntervalo spinTempoTotal spinFPS : Int) (now : Nat)
    (s : AppState) : AppState :=
  if base = "" then s
  else
    let pasta := base ++ "/" ++ ts
    let intervalo := (max 1 spinIntervalo).toNat
    let tempo_total := (max 0 spinTempoTotal).toNat
    let frames_previstos := ceilDivNat tempo_total intervalo
    let fps_video := (max 1 spinFPS).toNat
    let dur_video := if frames_previstos ≠ 0 then pyRound frames_previstos fps_video else 0
    { s with pasta_execucao := some pasta,
             frames_previstos := frames_previstos,
             contador := 0,
             progress_max := max 1 frames_previstos,
             progress_value := 0,
             lineEdit_2_text := natStr frames_previstos,
             lineEdit_text := "0",
             inicio := now,
             fim_previsto := now + tempo_total,
             capture_period_ms := intervalo * 1000,
             capture_active := true,
             btn_text := "Parar timelapse",
             controls_blocked := true,
             status_msg := "Timelapse iniciado: " ++ natStr frames_previstos
               ++ " frames | Vídeo: " ++ formatar_duracao (dur_video : Int) }

/-- Arguments the source hands to ffmpeg. -/
def ffmpeg_args (fps : Nat) (output : String) : List String :=
  ["-y", "-framerate", natStr fps, "-i", "frame_%05d.jpg",
   "-c:v", "libx264", "-pix_fmt", "yuv420p", output]

/-- Source `gerar_video`: with no run directory or zero saved frames it only
reports and never starts a process; otherwise it records the ffmpeg launch. -/
def gerar_video (spinFPS : Int) (s : AppState) : AppState :=
  match s.pasta_execucao with
  | none => { s with status_msg := "Nenhum frame para gerar vídeo." }
  | some pasta =>
    if pasta = "" ∨ s.contador = 0 then
      { s with status_msg := "Nenhum frame para gerar vídeo." }
    else
      let fps := (max 1 spinFPS).toNat
      let output := pasta ++ "/timelapse.mp4"
      { s with video_path_ultimo := some output,
               ffmpeg_calls := s.ffmpeg_calls ++ [⟨pasta, ffmpeg_args fps output⟩],
               status_msg := "Gerando vídeo..." }

/-- Source `parar_timelapse`: stop the capture timer, restore the UI, then
always call `gerar_video`. -/
def parar_timelapse (spinFPS : Int) (s : AppState) : AppState :=
  gerar_video spinFPS
    { s with capture_active := false,
             btn_text := "Iniciar timelapse",
             controls_blocked := false }

/-- Source `capturar_frame`: one capture-timer tick at time `now`; `read` is
the result of the dedicated `cap.read()` used only when preview is off. -/
def capturar_frame (now : Nat) (read : Option Frame) (spinFPS : Int)
    (s : AppState) : AppState :=
  if s.cap.isNone then s
  else
    match (if preview_habilitado s then s.frame_atual else read) with
    | none => s
    | some f =>
      if f.size = 0 then s
      else if s.fim_previsto ≤ now then parar_timelapse spinFPS s
      else
        let nome := "frame_" ++ pad5 s.contador ++ ".jpg"
        let caminho := joinPath s.pasta_execucao nome
        { s with saved_files := s.saved_files ++ [(caminho, f)],
                 contador := s.contador + 1,
                 lineEdit_text := natStr (s.contador + 1),
                 progress_value := min (s.contador + 1) s.progress_max }

/-- Source `abrir_pasta_saida`: request the OS file browser on the run
directory when one is set (`abrir_pasta_no_sistema` itself, with its isdir
guard and swallowed exceptions, is the OS boundary; the recorded call is the
invocation). -/
def abrir_pasta_saida (s : AppState) : AppState :=
  match s.pasta_execucao with
  | none => s
  | some p =>
    if p = "" then s
    else { s with folder_open_calls := s.folder_open_calls ++ [p] }

/-- Source `video_finalizado(exitCode, exitStatus)`: the ffmpeg completion
callback. -/
def video_finalizado (exitCode : Int) (s : AppState) : AppState :=
  if exitCode = 0 then
    let msg :=
      match s.video_path_ultimo with
      | none => "Vídeo gerado com sucesso ✅"
      | some v =>
        if v = "" then "Vídeo gerado com sucesso ✅"
        else "Vídeo gerado: " ++ v ++ " ✅"
    abrir_pasta_saida { s with status_msg := msg }
  else
    { s with status_msg := "Erro ao gerar vídeo ❌" }

/-- Usability test applied by `capturar_frame` to the frame it obtained:
present and of non-zero size. -/
def frameUsable : Option Frame → Bool
  | none => false
  | some f => decide (f.size ≠ 0)

/-! Scenario A (claim C1): intervalSeconds = 2, totalSeconds = 10, preview
enabled with a usable cached frame, run started at time 100, idealized ticks
at 100, 102, 104, 106, 108 and a sixth tick at 110 = deadline. -/

/-- Initial state for scenario A: camera 0 held, usable cached frame. -/
def s0A : AppState :=
  { cap := some 0, camera_index_atual := 0, frame_atual := some ⟨7, 1⟩,
    preview_checked := true, preview_active := true, cameras := [0] }

/-- Scenario A state right after the start command. -/
def s1A : AppState :=
  iniciar_timelapse "base" "timelapse_20260101_120000" 2 10 30 100 s0A

/-- One capture tick of scenario A at time `t` (preview is on, so the
dedicated read is unused). -/
def tickA (s : AppState) (t : Nat) : AppState := capturar_frame t none 30 s

/-- Scenario A after the five in-deadline ticks. -/
def s5A : AppState := List.foldl tickA s1A [100, 102, 104, 106, 108]

/-- Scenario A after the sixth tick, which falls on the deadline. -/
def s6A : AppState := tickA s5A 110

/-- Run directory of scenario A. -/
def pastaA : String := "base/timelapse_20260101_120000"

/-- Bundled open-and-read success of a probe, as used by `abrir_camera` and
by the fallback logic. -/
def camUsable (env : CamEnv) (i : Nat) : Bool :=
  (env i).opened && (env i).read.isSome

/-- Fallback index chosen by `trocar_camera_por_combo` after a failed open:
the first enumerated camera, or 0 when none were enumerated. -/
def fallbackIndex (s : AppState) : Nat :=
  match s.cameras with
  | [] => 0
  | c :: _ => c

/-! Helper lemmas shared by several claim proofs. -/

theorem abrir_camera_fail (env : CamEnv) (i : Nat) (s : AppState)
    (h : camUsable env i = false) : abrir_camera env i s = (false, s) := by
  unfold camUsable at h
  by_cases ho : (env i).opened = false
  · simp [abrir_camera, ho]
  · rw [Bool.not_eq_false] at ho
    rw [ho, Bool.true_and] at h
    cases hr : (env i).read with
    | none => simp [abrir_camera, ho, hr]
    | some f => rw [hr] at h; simp at h

theorem abrir_camera_succeed (env : CamEnv) (i : Nat) (s : AppState) (f : Frame)
    (ho : (env i).opened = true) (hr : (env i).read = some f) :
    abrir_camera env i s =
      (true, { s with released := s.released ++ s.cap.toList,
                      cap := some i,
                      camera_index_atual := i,
                      frame_atual := some f }) := by
  simp [abrir_camera, ho, hr]

theorem gerar_video_fields (spinFPS : Int) (s : AppState) :
    (gerar_video spinFPS s).capture_active = s.capture_active ∧
    (gerar_video spinFPS s).contador = s.contador ∧
    (gerar_video spinFPS s).saved_files = s.saved_files ∧
    (gerar_video spinFPS s).progress_value = s.progress_value ∧
    (gerar_video spinFPS s).progress_max = s.progress_max ∧
    (gerar_video spinFPS s).frames_previstos = s.frames_previstos ∧
    (gerar_video spinFPS s).folder_open_calls = s.folder_open_calls := by
  cases hp : s.pasta_execucao with
  | none => simp [gerar_video, hp]
  | some p =>
    by_cases hc : p = "" ∨ s.contador = 0 <;> simp [gerar_video, hp, hc]

theorem parar_timelapse_fields (spinFPS : Int) (s : AppState) :
    (parar_timelapse spinFPS s).capture_active = false ∧
    (parar_timelapse spinFPS s).contador = s.contador ∧
    (parar_timelapse spinFPS s).saved_files = s.saved_files ∧
    (parar_timelapse spinFPS s).progress_value = s.progress_value ∧
    (parar_timelapse spinFPS s).progress_max = s.progress_max ∧
    (parar_timelapse spinFPS s).frames_previstos = s.frames_previstos := by
  unfold parar_timelapse
  have h := gerar_video_fields spinFPS
    { s with capture_active := false,
             btn_text := "Iniciar timelapse",
             controls_blocked := false }
  exact ⟨h.1, h.2.1, h.2.2.1, h.2.2.2.1, h.2.2.2.2.1, h.2.2.2.2.2.1⟩

/-! Claim theorems. -/

/-- C1.  Scenario A: with intervalSeconds = 2 and totalSeconds = 10 the
predicted frame count is 5; under idealized timing (ticks at startTime + 2k
seconds, every tick holding a usable frame) the first five ticks save
exactly frame_00000.jpg .. frame_00004.jpg inside the run directory and the
run is still active, and the sixth tick (now = deadline) stops the run
without saving and launches ffmpeg over those frames. -/
theorem scenarioA_five_frames_then_stop :
    s1A.frames_previstos = 5 ∧
    s5A.contador = 5 ∧ s5A.capture_active = true ∧
    s5A.saved_files.map Prod.fst =
      [pastaA ++ "/frame_00000.jpg", pastaA ++ "/frame_00001.jpg",
       pastaA ++ "/frame_00002.jpg", pastaA ++ "/frame_00003.jpg",
       pastaA ++ "/frame_00004.jpg"] ∧
    s6A.capture_active = false ∧ s6A.contador = 5 ∧
    s6A.saved_files = s5A.saved_files ∧
    s6A.ffmpeg_calls =
      [⟨pastaA, ffmpeg_args 30 (pastaA ++ "/timelapse.mp4")⟩] := by
  decide

/-- C6.  While a capture run is active, a combo camera-switch request is a
pure no-op: the state is unchanged, so in particular no held handle is
released, and index, cached frame and preview timer are untouched. -/
theorem trocar_camera_rejected_while_running (env : CamEnv) (s : AppState)
    (hrun : s.capture_active = true) :
    trocar_camera_por_combo env s = s ∧
    (trocar_camera_por_combo env s).released = s.released ∧
    (trocar_camera_por_combo env s).cap = s.cap ∧
    (trocar_camera_por_combo env s).camera_index_atual = s.camera_index_atual ∧
    (trocar_camera_por_combo env s).frame_atual = s.frame_atual ∧
    (trocar_camera_por_combo env s).preview_active = s.preview_active := by
  have h : trocar_camera_por_combo env s = s := by
    unfold trocar_camera_por_combo
    cases hd : comboCurrentData s with
    | none => rfl
    | some novo => simp [hrun]
  exact ⟨h, by rw [h], by rw [h], by rw [h], by rw [h], by rw [h]⟩

/-- Camera environment with no usable device, used as witness input. -/
def envIdle : CamEnv := fun _ => ⟨false, none⟩

/-- Witness for C6 at a concrete running state. -/
theorem trocar_camera_rejected_while_running_witness :
    trocar_camera_por_combo envIdle { capture_active := true } =
      { capture_active := true } :=
  (trocar_camera_rejected_while_running envIdle { capture_active := true } rfl).1

/-- C8.  The stop transition always calls the encoder entry point
(`parar_timelapse` is the stop bookkeeping followed by `gerar_video`), and
`gerar_video` with an unset run directory or zero saved frames only reports
"nothing to encode" and never starts a process, while otherwise it launches
exactly one ffmpeg process. -/
theorem parar_always_invokes_gerar_video (spinFPS : Int) (s : AppState) :
    parar_timelapse spinFPS s =
      gerar_video spinFPS
        { s with capture_active := false,
                 btn_text := "Iniciar timelapse",
                 controls_blocked := false } ∧
    (parar_timelapse spinFPS s).capture_active = false ∧
    (s.pasta_execucao = none ∨ s.pasta_execucao = some "" ∨ s.contador = 0 →
      (gerar_video spinFPS s).ffmpeg_calls = s.ffmpeg_calls ∧
      (gerar_video spinFPS s).status_msg = "Nenhum frame para gerar vídeo.") ∧
    (∀ p, s.pasta_execucao = some p → p ≠ "" → s.contador ≠ 0 →
      (gerar_video spinFPS s).ffmpeg_calls = s.ffmpeg_calls ++
        [⟨p, ffmpeg_args (max 1 spinFPS).toNat (p ++ "/timelapse.mp4")⟩]) := by
  refine ⟨rfl, (parar_timelapse_fields spinFPS s).1, ?_, ?_⟩
  · rintro (hp | hp | hc)
    · simp [gerar_video, hp]
    · simp [gerar_video, hp]
    · cases hp : s.pasta_execucao with
      | none => simp [gerar_video, hp]
      | some p => simp [gerar_video, hp, hc]
  · intro p hp hne hc
    have hor : ¬(p = "" ∨ s.contador = 0) := by
      rintro (h | h)
      · exact hne h
      · exact hc h
    simp [gerar_video, hp, hor]

/-- Witness for C8 at a concrete state with no run directory. -/
theorem parar_always_invokes_gerar_video_witness :
    (gerar_video 30 {}).ffmpeg_calls = AppState.ffmpeg_calls {} ∧
    (gerar_video 30 {}).status_msg = "Nenhum frame para gerar vídeo." :=
  (parar_always_invokes_gerar_video 30 {}).2.2.1 (Or.inl rfl)

/-- C9.  On ffmpeg completion, the folder-open request on the run directory
happens exactly when the exit code is 0; a success message names the output
path, every nonzero exit code yields the failure message, and no new ffmpeg
process is started in either case. -/
theorem video_finalizado_folder_iff_success (exitCode : Int) (s : AppState)
    (p : String) (hp : s.pasta_execucao = some p) (hne : p ≠ "") :
    (video_finalizado exitCode s).folder_open_calls =
      s.folder_open_calls ++ (if exitCode = 0 then [p] else []) ∧
    (exitCode = 0 → ∀ v, s.video_path_ultimo = some v → v ≠ "" →
      (video_finalizado exitCode s).status_msg = "Vídeo gerado: " ++ v ++ " ✅") ∧
    (exitCode ≠ 0 →
      (video_finalizado exitCode s).status_msg = "Erro ao gerar vídeo ❌") ∧
    (video_finalizado exitCode s).ffmpeg_calls = s.ffmpeg_calls := by
  by_cases he : exitCode = 0
  · refine ⟨?_, ?_, fun hne0 => absurd he hne0, ?_⟩
    · simp [video_finalizado, he, abrir_pasta_saida, hp, hne]
    · intro _ v hv hvne
      simp [video_finalizado, he, abrir_pasta_saida, hp, hne, hv, hvne]
    · simp [video_finalizado, he, abrir_pasta_saida, hp, hne]
  · refine ⟨?_, fun h0 => absurd h0 he, ?_, ?_⟩
    · simp [video_finalizado, he]
    · intro _; simp [video_finalizado, he]
    · simp [video_finalizado, he]

/-- Concrete post-encode state used as witness input for C9. -/
def sDoneB : AppState :=
  { pasta_execucao := some "d", video_path_ultimo := some "d/timelapse.mp4",
    contador := 5 }

/-- Witness for C9 at exit code 0. -/
theorem video_finalizado_folder_iff_success_witness :
    (video_finalizado 0 sDoneB).folder_open_calls =
      sDoneB.folder_open_calls ++ (if (0 : Int) = 0 then ["d"] else []) ∧
    (video_finalizado 0 sDoneB).status_msg =
      "Vídeo gerado: " ++ "d/timelapse.mp4" ++ " ✅" :=
  ⟨(video_finalizado_folder_iff_success 0 sDoneB "d" rfl (by decide)).1,
   (video_finalizado_folder_iff_success 0 sDoneB "d" rfl (by decide)).2.1
     rfl "d/timelapse.mp4" rfl (by decide)⟩

/-- C10.  A failed `abrir_camera` (open fails or the liveness read fails)
leaves the whole session state untouched — in particular the held handle is
neither released nor replaced —, while a successful one releases the old
handle, installs the new index and caches the first frame read. -/
theorem abrir_camera_failure_no_change (env : CamEnv) (i : Nat) (s : AppState) :
    ((env i).opened = false ∨ (env i).read = none →
      abrir_camera env i s = (false, s)) ∧
    (∀ f, (env i).opened = true → (env i).read = some f →
      abrir_camera env i s =
        (true, { s with released := s.released ++ s.cap.toList,
                        cap := some i,
                        camera_index_atual := i,
                        frame_atual := some f })) := by
  constructor
  · intro h
    apply abrir_camera_fail
    unfold camUsable
    rcases h with h | h
    · simp [h]
    · simp [h]
  · intro f ho hr
    exact abrir_camera_succeed env i s f ho hr

/-- Witness for C10: a failed open at a concrete state changes nothing. -/
theorem abrir_camera_failure_no_change_witness :
    abrir_camera envIdle 0 { cap := some 3, camera_index_atual := 3 } =
      (false, { cap := some 3, camera_index_atual := 3 }) :=
  (abrir_camera_failure_no_change envIdle 0
    { cap := some 3, camera_index_atual := 3 }).1 (Or.inl rfl)

/-- C2.  Order of one capture tick while a run is active and a camera is
held: the frame obtained is the cached preview frame when preview is
enabled, else the fresh read; an unusable frame makes the tick a strict
no-op with the run still active; a usable frame at or past the deadline
stops the run without saving; otherwise exactly one file
frame_{savedCount}.jpg is appended and the counter grows by one. -/
theorem capture_tick_order (now : Nat) (read : Option Frame) (spinFPS : Int)
    (s : AppState) (hcap : s.cap.isSome = true)
    (hrun : s.capture_active = true) :
    (frameUsable (if preview_habilitado s then s.frame_atual else read) = false →
      capturar_frame now read spinFPS s = s ∧
      (capturar_frame now read spinFPS s).capture_active = true) ∧
    (∀ f, (if preview_habilitado s then s.frame_atual else read) = some f →
      f.size ≠ 0 →
      (s.fim_previsto ≤ now →
        (capturar_frame now read spinFPS s).capture_active = false ∧
        (capturar_frame now read spinFPS s).contador = s.contador ∧
        (capturar_frame now read spinFPS s).saved_files = s.saved_files) ∧
      (now < s.fim_previsto →
        (capturar_frame now read spinFPS s).capture_active = true ∧
        (capturar_frame now read spinFPS s).contador = s.contador + 1 ∧
        (capturar_frame now read spinFPS s).saved_files = s.saved_files ++
          [(joinPath s.pasta_execucao ("frame_" ++ pad5 s.contador ++ ".jpg"),
            f)])) := by
  obtain ⟨c, hc⟩ := Option.isSome_iff_exists.mp hcap
  have hnn : s.cap.isNone = false := by rw [hc]; rfl
  constructor
  · intro hfu
    cases ho : (if preview_habilitado s then s.frame_atual else read) with
    | none =>
      have he : capturar_frame now read spinFPS s = s := by
        simp [capturar_frame, hnn, ho]
      exact ⟨he, by rw [he]; exact hrun⟩
    | some f =>
      have hsz : f.size = 0 := by
        rw [ho] at hfu
        simpa [frameUsable] using hfu
      have he : capturar_frame now read spinFPS s = s := by
        simp [capturar_frame, hnn, ho, hsz]
      exact ⟨he, by rw [he]; exact hrun⟩
  · intro f ho hsz
    constructor
    · intro hdl
      have he : capturar_frame now read spinFPS s = parar_timelapse spinFPS s := by
        simp [capturar_frame, hnn, ho, hsz, hdl]
      rw [he]
      exact ⟨(parar_timelapse_fields spinFPS s).1,
             (parar_timelapse_fields spinFPS s).2.1,
             (parar_timelapse_fields spinFPS s).2.2.1⟩
    · intro hlt
      have hdl : ¬ (s.fim_previsto ≤ now) := by omega
      refine ⟨?_, ?_, ?_⟩ <;> simp [capturar_frame, hnn, ho, hsz, hdl, hrun]

/-- Concrete running state used as witness input for C2. -/
def sRunW : AppState :=
  { cap := some 0, capture_active := true, frame_atual := some ⟨1, 1⟩,
    fim_previsto := 10 }

/-- Witness for C2: one in-deadline tick on a concrete running state. -/
theorem capture_tick_order_witness :
    (capturar_frame 0 none 30 sRunW).capture_active = true ∧
    (capturar_frame 0 none 30 sRunW).contador = sRunW.contador + 1 ∧
    (capturar_frame 0 none 30 sRunW).saved_files = sRunW.saved_files ++
      [(joinPath sRunW.pasta_execucao
        ("frame_" ++ pad5 sRunW.contador ++ ".jpg"), ⟨1, 1⟩)] :=
  ((capture_tick_order 0 none 30 sRunW rfl rfl).2 ⟨1, 1⟩ rfl
    (by decide)).2 (by decide)

/-- Every index the probe loop collects lies in the probed window and passed
both the open and the read check. -/
theorem detectar_aux_mem (env : CamEnv) :
    ∀ rem i falhas j, j ∈ detectar_aux env rem i falhas →
      i ≤ j ∧ j < i + rem ∧ (env j).opened = true ∧
      (env j).read.isSome = true := by
  intro rem
  induction rem with
  | zero => intro i falhas j hj; simp [detectar_aux] at hj
  | succ n ih =>
    intro i falhas j hj
    unfold detectar_aux at hj
    by_cases h1 : (env i).opened = false
    · rw [if_pos h1] at hj
      by_cases h2 : 2 ≤ falhas + 1
      · rw [if_pos h2] at hj; simp at hj
      · rw [if_neg h2] at hj
        obtain ⟨ha, hb, hc2, hd2⟩ := ih (i + 1) (falhas + 1) j hj
        exact ⟨by omega, by omega, hc2, hd2⟩
    · rw [if_neg h1] at hj
      by_cases h3 : (env i).read.isSome = true
      · rw [if_pos h3] at hj
        rcases List.mem_cons.mp hj with h | h
        · subst h
          refine ⟨Nat.le_refl j, by omega, ?_, h3⟩
          simpa using h1
        · obtain ⟨ha, hb, hc2, hd2⟩ := ih (i + 1) 0 j h
          exact ⟨by omega, by omega, hc2, hd2⟩
      · rw [if_neg h3] at hj
        by_cases h2 : 2 ≤ falhas + 1
        · rw [if_pos h2] at hj; simp at hj
        · rw [if_neg h2] at hj
          obtain ⟨ha, hb, hc2, hd2⟩ := ih (i + 1) (falhas + 1) j hj
          exact ⟨by omega, by omega, hc2, hd2⟩

/-- The probe loop emits indices in strictly increasing order. -/
theorem detectar_aux_pairwise (env : CamEnv) :
    ∀ rem i falhas, (detectar_aux env rem i falhas).Pairwise (· < ·) := by
  intro rem
  induction rem with
  | zero => intro i falhas; simp [detectar_aux]
  | succ n ih =>
    intro i falhas
    unfold detectar_aux
    by_cases h1 : (env i).opened = false
    · rw [if_pos h1]
      by_cases h2 : 2 ≤ falhas + 1
      · rw [if_pos h2]; exact List.Pairwise.nil
      · rw [if_neg h2]; exact ih (i + 1) (falhas + 1)
    · rw [if_neg h1]
      by_cases h3 : (env i).read.isSome = true
      · rw [if_pos h3]
        refine List.pairwise_cons.mpr ⟨?_, ih (i + 1) 0⟩
        intro j hj
        have := (detectar_aux_mem env n (i + 1) 0 j hj).1
        omega
      · rw [if_neg h3]
        by_cases h2 : 2 ≤ falhas + 1
        · rw [if_pos h2]; exact List.Pairwise.nil
        · rw [if_neg h2]; exact ih (i + 1) (falhas + 1)

/-- A failed probe (open fails, or open succeeds but the read fails) always
takes the consecutive-failure continuation of the loop. -/
theorem detectar_aux_fail_step (env : CamEnv) (rem i falhas : Nat)
    (h : camUsable env i = false) :
    detectar_aux env (rem + 1) i falhas =
      if 2 ≤ falhas + 1 then []
      else detectar_aux env rem (i + 1) (falhas + 1) := by
  by_cases ho : (env i).opened = false
  · simp [detectar_aux, ho]
  · have ho2 : (env i).opened = true := by simpa using ho
    have hr : (env i).read.isSome = false := by
      rw [camUsable, ho2] at h
      simpa using h
    simp [detectar_aux, ho2, hr]

/-- Two consecutive unusable indices reached with the failure counter at 0
abort the scan with nothing more collected. -/
theorem detectar_aux_two_fails (env : CamEnv) (i : Nat)
    (h1 : camUsable env i = false) (h2 : camUsable env (i + 1) = false) :
    ∀ rem, detectar_aux env rem i 0 = [] := by
  intro rem
  match rem with
  | 0 => rfl
  | rem1 + 1 =>
    rw [detectar_aux_fail_step env rem1 i 0 h1, if_neg (by omega)]
    match rem1 with
    | 0 => rfl
    | rem2 + 1 =>
      rw [detectar_aux_fail_step env rem2 (i + 1) 1 h2, if_pos (by omega)]

/-- C3.  Enumeration probes 0..maxProbes-1 in increasing order; an index is
included only when its open and its read both succeed; two consecutive
unusable indices met with the failure counter reset abort the scan; in
particular failed opens at indices 0 and 1 yield an empty result no matter
what later indices (such as 2) would return. -/
theorem detectar_cameras_spec (env : CamEnv) (n : Nat) :
    (∀ j ∈ detectar_cameras env n,
      j < n ∧ (env j).opened = true ∧ (env j).read.isSome = true) ∧
    (detectar_cameras env n).Pairwise (· < ·) ∧
    ((env 0).opened = false → (env 1).opened = false →
      detectar_cameras env n = []) ∧
    (∀ i m, camUsable env i = false → camUsable env (i + 1) = false →
      detectar_aux env m i 0 = []) := by
  refine ⟨?_, detectar_aux_pairwise env n 0 0, ?_, ?_⟩
  · intro j hj
    obtain ⟨_, hb, hc2, hd2⟩ := detectar_aux_mem env n 0 0 j hj
    exact ⟨by omega, hc2, hd2⟩
  · intro h0 h1
    exact detectar_aux_two_fails env 0 (by rw [camUsable, h0]; rfl)
      (by rw [camUsable, h1]; rfl) n
  · intro i m hf1 hf2
    exact detectar_aux_two_fails env i hf1 hf2 m

/-- Camera environment of scenario B: opens fail at indices 0 and 1, index 2
would be perfectly usable. -/
def envB : CamEnv := fun i =>
  if i = 2 then ⟨true, some ⟨1, 1⟩⟩ else ⟨false, none⟩

/-- Witness for C3, scenario B: the scan returns nothing although index 2
would have succeeded. -/
theorem detectar_cameras_spec_witness :
    detectar_cameras envB 6 = [] ∧
    (envB 2).opened = true ∧ (envB 2).read.isSome = true :=
  ⟨(detectar_cameras_spec envB 6).2.2.1 rfl rfl, rfl, rfl⟩

/-- Nat ceiling division `(a + b - 1) / b` computes the rational ceiling of
`a / b` for `b ≥ 1`. -/
theorem ceilDivNat_eq_ceil (tt iv : Nat) (h : 1 ≤ iv) :
    ceilDivNat tt iv = ⌈(tt : ℚ) / (iv : ℚ)⌉₊ := by
  have hiv0 : 0 < iv := h
  have hivQ : (0 : ℚ) < (iv : ℚ) := by exact_mod_cast hiv0
  have h2 : tt ≤ ceilDivNat tt iv * iv := by
    by_contra hcon
    push_neg at hcon
    have hstep : ceilDivNat tt iv + 1 ≤ (tt + iv - 1) / iv := by
      rw [Nat.le_div_iff_mul_le hiv0]
      have hx : (ceilDivNat tt iv + 1) * iv = ceilDivNat tt iv * iv + iv := by
        ring
      rw [hx]
      generalize ceilDivNat tt iv * iv = m at hcon ⊢
      omega
    have hId : ceilDivNat tt iv = (tt + iv - 1) / iv := rfl
    rw [← hId] at hstep
    omega
  apply le_antisymm
  · have h1 : tt ≤ ⌈(tt : ℚ) / (iv : ℚ)⌉₊ * iv := by
      have hle := Nat.le_ceil ((tt : ℚ) / (iv : ℚ))
      rw [div_le_iff₀ hivQ] at hle
      exact_mod_cast hle
    show (tt + iv - 1) / iv ≤ _
    rw [Nat.div_le_iff_le_mul_add_pred hiv0, Nat.mul_comm]
    generalize ⌈(tt : ℚ) / (iv : ℚ)⌉₊ * iv = m at h1 ⊢
    omega
  · rw [Nat.ceil_le, div_le_iff₀ hivQ]
    exact_mod_cast h2

/-- C4.  For intervalSeconds ≥ 1 and any totalSeconds, both the prediction
logic and the run-start logic compute frameCount = ceil(total / interval),
and that count is zero exactly when totalSeconds is zero. -/
theorem previsao_frames_ceil (iv tt : Nat) (hiv : 1 ≤ iv) :
    previsao_frames (iv : Int) (tt : Int) = ⌈(tt : ℚ) / (iv : ℚ)⌉₊ ∧
    (∀ base ts spinFPS now s, base ≠ "" →
      (iniciar_timelapse base ts (iv : Int) (tt : Int) spinFPS now
        s).frames_previstos = ⌈(tt : ℚ) / (iv : ℚ)⌉₊) ∧
    (previsao_frames (iv : Int) (tt : Int) = 0 ↔ tt = 0) := by
  have hmax1 : (max 1 (iv : Int)).toNat = iv := by omega
  have hmax0 : (max 0 (tt : Int)).toNat = tt := by omega
  have hiv0 : 0 < iv := hiv
  refine ⟨?_, ?_, ?_⟩
  · simp only [previsao_frames, hmax1, hmax0, if_pos hiv0]
    exact ceilDivNat_eq_ceil tt iv hiv
  · intro base ts spinFPS now s hbase
    simp only [iniciar_timelapse, if_neg hbase, hmax1, hmax0]
    exact ceilDivNat_eq_ceil tt iv hiv
  · simp only [previsao_frames, hmax1, hmax0, if_pos hiv0]
    unfold ceilDivNat
    rw [Nat.div_eq_zero_iff hiv0]
    omega

/-- Witness for C4 at interval 2, total 10. -/
theorem previsao_frames_ceil_witness :
    previsao_frames ((2 : Nat) : Int) ((10 : Nat) : Int) =
      ⌈((10 : Nat) : ℚ) / ((2 : Nat) : ℚ)⌉₊ ∧
    (previsao_frames ((2 : Nat) : Int) ((10 : Nat) : Int) = 0 ↔
      (10 : Nat) = 0) :=
  ⟨(previsao_frames_ceil 2 10 (by decide)).1,
   (previsao_frames_ceil 2 10 (by decide)).2.2⟩

/-- C5.  A run starts with savedCount 0, progress 0 and progress cap
max(1, frameCount); every capture tick leaves savedCount unchanged or
increments it by one, never shrinks the cap, and keeps the published
progress value within the cap. -/
theorem savedCount_monotone_progress_capped (now : Nat) (read : Option Frame)
    (spinFPS : Int) (s : AppState)
    (hmax : s.progress_max = max 1 s.frames_previstos)
    (hval : s.progress_value ≤ s.progress_max) :
    ((capturar_frame now read spinFPS s).contador = s.contador ∨
     (capturar_frame now read spinFPS s).contador = s.contador + 1) ∧
    (capturar_frame now read spinFPS s).progress_max = s.progress_max ∧
    (capturar_frame now read spinFPS s).frames_previstos = s.frames_previstos ∧
    (capturar_frame now read spinFPS s).progress_value ≤
      max 1 (capturar_frame now read spinFPS s).frames_previstos ∧
    (∀ base ts iv tt fps2 now2, base ≠ "" →
      (iniciar_timelapse base ts iv tt fps2 now2 s).contador = 0 ∧
      (iniciar_timelapse base ts iv tt fps2 now2 s).progress_value = 0 ∧
      (iniciar_timelapse base ts iv tt fps2 now2 s).progress_max =
        max 1 (iniciar_timelapse base ts iv tt fps2 now2
          s).frames_previstos) := by
  have hvc : s.progress_value ≤ max 1 s.frames_previstos := hmax ▸ hval
  have hinit : ∀ base ts iv tt fps2 now2, base ≠ "" →
      (iniciar_timelapse base ts iv tt fps2 now2 s).contador = 0 ∧
      (iniciar_timelapse base ts iv tt fps2 now2 s).progress_value = 0 ∧
      (iniciar_timelapse base ts iv tt fps2 now2 s).progress_max =
        max 1 (iniciar_timelapse base ts iv tt fps2 now2
          s).frames_previstos := by
    intro base ts iv tt fps2 now2 hbase
    refine ⟨?_, ?_, ?_⟩ <;> simp [iniciar_timelapse, if_neg hbase]
  cases hc : s.cap with
  | none =>
    have he : capturar_frame now read spinFPS s = s := by
      simp [capturar_frame, hc]
    rw [he]
    exact ⟨Or.inl rfl, rfl, rfl, hvc, hinit⟩
  | some c =>
    have hnn : s.cap.isNone = false := by rw [hc]; rfl
    cases ho : (if preview_habilitado s then s.frame_atual else read) with
    | none =>
      have he : capturar_frame now read spinFPS s = s := by
        simp [capturar_frame, hnn, ho]
      rw [he]
      exact ⟨Or.inl rfl, rfl, rfl, hvc, hinit⟩
    | some f =>
      by_cases hsz : f.size = 0
      · have he : capturar_frame now read spinFPS s = s := by
          simp [capturar_frame, hnn, ho, hsz]
        rw [he]
        exact ⟨Or.inl rfl, rfl, rfl, hvc, hinit⟩
      · by_cases hdl : s.fim_previsto ≤ now
        · have he : capturar_frame now read spinFPS s =
              parar_timelapse spinFPS s := by
            simp [capturar_frame, hnn, ho, hsz, hdl]
          rw [he]
          obtain ⟨_, p2, _, p4, p5, p6⟩ := parar_timelapse_fields spinFPS s
          exact ⟨Or.inl p2, p5, p6, by rw [p4, p6]; exact hvc, hinit⟩
        · refine ⟨Or.inr ?_, ?_, ?_, ?_, hinit⟩
          · simp [capturar_frame, hnn, ho, hsz, hdl]
          · simp [capturar_frame, hnn, ho, hsz, hdl]
          · simp [capturar_frame, hnn, ho, hsz, hdl]
          · have hv : (capturar_frame now read spinFPS s).progress_value =
                min (s.contador + 1) s.progress_max := by
              simp [capturar_frame, hnn, ho, hsz, hdl]
            have hf : (capturar_frame now read spinFPS s).frames_previstos =
                s.frames_previstos := by
              simp [capturar_frame, hnn, ho, hsz, hdl]
            rw [hv, hf, ← hmax]
            exact Nat.min_le_right _ _

/-- Camera environment for the failed-switch scenario: index 2 cannot be
opened, every other index (including the previously selected 1) is usable. -/
def envC7 : CamEnv := fun i =>
  if i = 2 then ⟨false, none⟩ else ⟨true, some ⟨i, 1⟩⟩

/-- State for the failed-switch scenario: camera 1 held, combo moved to the
item for index 2, no run active. -/
def sC7 : AppState :=
  { cap := some 1, camera_index_atual := 1, frame_atual := some ⟨1, 1⟩,
    cameras := [0, 1, 2], combo_index := 2, capture_active := false,
    preview_active := false }

/-- Counterexample to C7: after the open of newly selected index 2 fails,
the handler ends up on fallback index 0 although reopening the previously
selected index 1 would have succeeded — so no reopen of the previous index
is ever attempted. -/
theorem trocar_camera_no_previous_reopen_cex :
    sC7.camera_index_atual = 1 ∧
    camUsable envC7 1 = true ∧
    (trocar_camera_por_combo envC7 sC7).camera_index_atual = 0 ∧
    (trocar_camera_por_combo envC7 sC7).cap = some 0 := by
  decide

/-- Uniform evaluation of `abrir_camera`: its outcome is decided by
`camUsable`, and on success the cached frame is exactly the read result. -/
theorem abrir_camera_eq (env : CamEnv) (i : Nat) (s : AppState) :
    abrir_camera env i s =
      if camUsable env i then
        (true, { s with released := s.released ++ s.cap.toList,
                        cap := some i,
                        camera_index_atual := i,
                        frame_atual := (env i).read })
      else (false, s) := by
  cases ho : (env i).opened with
  | false => simp [abrir_camera, camUsable, ho]
  | true =>
    cases hr : (env i).read with
    | none => simp [abrir_camera, camUsable, ho, hr]
    | some f => simp [abrir_camera, camUsable, ho, hr]

/-- C7 (amended).  When a switch outside a run fails to open the newly
selected index, the handler falls back directly to the first enumerated
index (or 0 when none were enumerated) without first retrying the previous
index, and moves the selector to the fallback's position (position 0) with
signals blocked, so the slot is not re-entered. -/
theorem trocar_camera_fallback_direct (env : CamEnv) (s : AppState)
    (novo : Nat) (hd : comboCurrentData s = some novo)
    (hrun : s.capture_active = false)
    (hfail : camUsable env novo = false) :
    ((trocar_camera_por_combo env s).camera_index_atual =
      if camUsable env (fallbackIndex s) then fallbackIndex s
      else s.camera_index_atual) ∧
    ((trocar_camera_por_combo env s).cap =
      if camUsable env (fallbackIndex s) then some (fallbackIndex s)
      else s.cap) ∧
    (s.cameras ≠ [] → (trocar_camera_por_combo env s).combo_index = 0) ∧
    (s.cameras = [] →
      (trocar_camera_por_combo env s).combo_index = s.combo_index) := by
  cases hcams : s.cameras with
  | nil =>
    have hfb : fallbackIndex s = 0 := by
      rw [fallbackIndex, hcams]
    rw [hfb]
    by_cases hu : camUsable env 0 = true
    · refine ⟨?_, ?_, fun hne => absurd rfl hne, fun _ => ?_⟩ <;>
        simp [trocar_camera_por_combo, hd, hrun, abrir_camera_eq, hfail,
          hcams, hu, findData, apply_ite AppState.camera_index_atual,
          apply_ite AppState.cap, apply_ite AppState.combo_index]
    · rw [Bool.not_eq_true] at hu
      refine ⟨?_, ?_, fun hne => absurd rfl hne, fun _ => ?_⟩ <;>
        simp [trocar_camera_por_combo, hd, hrun, abrir_camera_eq, hfail,
          hcams, hu, findData, apply_ite AppState.camera_index_atual,
          apply_ite AppState.cap, apply_ite AppState.combo_index]
  | cons c rest =>
    have hfb : fallbackIndex s = c := by
      rw [fallbackIndex, hcams]
    rw [hfb]
    by_cases hu : camUsable env c = true
    · refine ⟨?_, ?_, fun _ => ?_, fun he => by simp at he⟩ <;>
        simp [trocar_camera_por_combo, hd, hrun, abrir_camera_eq, hfail,
          hcams, hu, findData, apply_ite AppState.camera_index_atual,
          apply_ite AppState.cap, apply_ite AppState.combo_index]
    · rw [Bool.not_eq_true] at hu
      refine ⟨?_, ?_, fun _ => ?_, fun he => by simp at he⟩ <;>
        simp [trocar_camera_por_combo, hd, hrun, abrir_camera_eq, hfail,
          hcams, hu, findData, apply_ite AppState.camera_index_atual,
          apply_ite AppState.cap, apply_ite AppState.combo_index]

/-- Witness for the amended C7 on the concrete failed-switch scenario. -/
theorem trocar_camera_fallback_direct_witness :
    ((trocar_camera_por_combo envC7 sC7).cap =
      if camUsable envC7 (fallbackIndex sC7) then some (fallbackIndex sC7)
      else sC7.cap) ∧
    (sC7.cameras ≠ [] → (trocar_camera_por_combo envC7 sC7).combo_index = 0) :=
  ⟨(trocar_camera_fallback_direct envC7 sC7 2 (by decide) (by decide)
      (by decide)).2.1,
   (trocar_camera_fallback_direct envC7 sC7 2 (by decide) (by decide)
      (by decide)).2.2.1⟩

/-- Witness for C5 on the idle default state. -/
theorem savedCount_monotone_progress_capped_witness :
    ((capturar_frame 0 none 30 {}).contador = AppState.contador {} ∨
     (capturar_frame 0 none 30 {}).contador = AppState.contador {} + 1) ∧
    (capturar_frame 0 none 30 {}).progress_value ≤
      max 1 (capturar_frame 0 none 30 {}).frames_previstos :=
  ⟨(savedCount_monotone_progress_capped 0 none 30 {} (by decide)
      (by decide)).1,
   (savedCount_monotone_progress_capped 0 none 30 {} (by decide)
      (by decide)).2.2.2.1⟩

end Timelapse
